import Mathlib

/-!
Shallow embedding of the client-side script layer of the GalacticBonk site
(src/main.js; src/unnamed/part_000 is an earlier revision of the same file
whose star/comet/supernova/FAQ/clipboard/wallet logic is identical where the
two overlap).

Conventions of the embedding:
* JS numbers are modelled as `ℚ`; the claims under scrutiny hinge on the
  arithmetic structure of the code (which branch runs, which field changes),
  not on float rounding.
* `Math.random()` draws are explicit parameters (`r1`, `r2`, ... or a stream
  `rand : Nat → ℚ`), in the order the source consumes them.
* `Math.sin`, `Math.cos` and `Math.PI` are pure host functions/constants; they
  are passed in as parameters `msin mcos : ℚ → ℚ` and `mpi : ℚ` so that every
  definition stays executable.
* The mutable arrays `stars`, `comets`, `supernovas`, `nebulas` become lists;
  the `forEach`-with-`splice` loops of `draw` are modelled index by index by
  `spliceForEach`, which mirrors the ECMAScript iteration protocol (the index
  advances even when the current element was just spliced out).
-/

namespace GalacticBonk

/-- A star as pushed by `spawnStars` (src/main.js lines 55-74). The `color`
field records the alpha component of the rgba colour string (the code stores
`rgba(255,255,255,<alpha>)`; only the numeric alpha carries information). -/
structure Star where
  x : ℚ
  y : ℚ
  radius : ℚ
  speed : ℚ
  color : ℚ
  deriving DecidableEq

/-- A comet as created by `spawnComet` (src/main.js lines 77-89). -/
structure Comet where
  x : ℚ
  y : ℚ
  vx : ℚ
  vy : ℚ
  life : ℚ
  maxLife : ℚ
  size : ℚ
  deriving DecidableEq

/-- A supernova as created by `spawnSupernova` (src/main.js lines 92-100). -/
structure Supernova where
  x : ℚ
  y : ℚ
  radius : ℚ
  maxRadius : ℚ
  alpha : ℚ
  deriving DecidableEq

/-- A nebula as created by `spawnNebula` (src/main.js lines 107-129). -/
structure Nebula where
  x : ℚ
  y : ℚ
  radius : ℚ
  angle : ℚ
  speed : ℚ
  scaleX : ℚ
  inner : String
  outer : String
  deriving DecidableEq

/-- One update of a single star inside `stars.forEach` of `draw`
(src/main.js lines 176-186, src/unnamed/part_000 lines 71-81):
`s.y += s.speed; if (s.y > h) { s.y = 0; s.x = Math.random() * w; }`.
`randX` is the `Math.random()` draw used for the new `x` on wrap. -/
def starStep (w h randX : ℚ) (s : Star) : Star :=
  let s1 := { s with y := s.y + s.speed }
  if s1.y > h then { s1 with y := 0, x := randX * w } else s1

/-- Kinematic update of one comet inside `comets.forEach` of `draw`
(src/main.js lines 188-191): `c.x += -c.vx; c.y += c.vy; c.life++;`. -/
def cometUpdate (c : Comet) : Comet :=
  { c with x := c.x + -c.vx, y := c.y + c.vy, life := c.life + 1 }

/-- Removal condition for a comet (src/main.js line 201):
`c.life > c.maxLife || c.x < -c.size * 12 || c.y > h + c.size * 12`. -/
def cometDead (h : ℚ) (c : Comet) : Bool :=
  decide (c.maxLife < c.life) || decide (c.x < -(c.size * 12)) ||
    decide (h + c.size * 12 < c.y)

/-- Update of one supernova inside `supernovas.forEach` of `draw`
(src/main.js lines 206-208): `s.radius += 2; s.alpha -= 0.015;`. -/
def superUpdate (s : Supernova) : Supernova :=
  { s with radius := s.radius + 2, alpha := s.alpha - 3/200 }

/-- Removal condition for a supernova (src/main.js line 214):
`s.radius > s.maxRadius || s.alpha <= 0`. -/
def superDead (s : Supernova) : Bool :=
  decide (s.maxRadius < s.radius) || decide (s.alpha ≤ 0)

/-- Per-frame update of one nebula (src/main.js lines 170-173):
`n.angle += n.speed; n.scaleX += Math.sin(performance.now() * 0.0002) * 0.0003`.
`sinT` stands for the value of `Math.sin(performance.now() * 0.0002)` at this
frame. -/
def nebulaStep (sinT : ℚ) (n : Nebula) : Nebula :=
  { n with angle := n.angle + n.speed, scaleX := n.scaleX + sinT * (3/10000) }

section Splice

variable {α : Type*}

/-- The `arr.forEach((a, index) => { a = upd(a); if (kill(a)) arr.splice(index, 1); })`
pattern used for both the comets and the supernovas loop in `draw`
(src/main.js lines 188-217, src/unnamed/part_000 lines 83-112). ECMAScript
`forEach` fixes the iteration bound at the original length, visits index `k`
only while it still exists, and keeps advancing `k` after a `splice`; since
elements are only removed, iteration stops once `k` reaches the current
length. `fuel` is initialised to the original length. -/
def spliceForEach (upd : α → α) (kill : α → Bool) : Nat → Nat → List α → List α
  | 0, _, l => l
  | fuel + 1, k, l =>
    if hk : k < l.length then
      let a := upd (l.get ⟨k, hk⟩)
      if kill a then spliceForEach upd kill fuel (k + 1) ((l.set k a).eraseIdx k)
      else spliceForEach upd kill fuel (k + 1) (l.set k a)
    else l

/-- Structural description of one `forEach`-with-`splice` pass, proved
equivalent to `spliceForEach` below: a visited element is updated and removed
iff `kill` holds of its updated state; the element immediately following a
removed one is skipped (left untouched and unchecked) because the cursor has
already moved past its new index. -/
def spliceRun (upd : α → α) (kill : α → Bool) : List α → List α
  | [] => []
  | a :: rest =>
    if kill (upd a) then
      match rest with
      | [] => []
      | b :: rest2 => b :: spliceRun upd kill rest2
    else upd a :: spliceRun upd kill rest

end Splice

/-- The comets portion of one `draw` frame (src/main.js lines 188-204). -/
def cometsDraw (h : ℚ) (comets : List Comet) : List Comet :=
  spliceForEach cometUpdate (cometDead h) comets.length 0 comets

/-- The supernovas portion of one `draw` frame (src/main.js lines 206-217). -/
def supernovasDraw (supernovas : List Supernova) : List Supernova :=
  spliceForEach superUpdate superDead supernovas.length 0 supernovas

/-- The stars portion of one `draw` frame (src/main.js lines 176-186); star
`i` consumes `rand i` if it wraps. Stars are never added or removed here. -/
def starsDraw (w h : ℚ) (rand : Nat → ℚ) (stars : List Star) : List Star :=
  stars.mapIdx fun i s => starStep w h (rand i) s

/-- The nebulas portion of one `draw` frame (src/main.js lines 153-174);
drawing mutates only `angle` and `scaleX`. -/
def nebulasDraw (sinT : ℚ) (nebulas : List Nebula) : List Nebula :=
  nebulas.map (nebulaStep sinT)

/-- One star of `spawnStars` (src/main.js lines 55-74); `r1 r2 r3 r4` are the
four `Math.random()` draws in source order (speed, radius, x, y). The code
stores the colour as an rgba string with `alpha.toFixed(3)`; the model keeps
the exact alpha value. -/
def spawnStar (w h r1 r2 r3 r4 : ℚ) : Star :=
  let speed := 15/100 + r1 * (75/100)
  let radius := 3/10 + r2 * (14/10)
  let alpha := 4/10 + speed / (9/10) * (6/10)
  { x := r3 * w, y := r4 * h, radius := radius, speed := speed, color := alpha }

/-- The batch `spawnStars(num)` (src/main.js lines 55-74) as a list; star `i`
consumes draws `4*i .. 4*i+3` of the stream. -/
def spawnStarsList (num : Nat) (w h : ℚ) (rand : Nat → ℚ) : List Star :=
  (List.range num).map fun i =>
    spawnStar w h (rand (4*i)) (rand (4*i+1)) (rand (4*i+2)) (rand (4*i+3))

/-- The comet factory `spawnComet` (src/main.js lines 77-89). -/
def spawnComet (msin mcos : ℚ → ℚ) (mpi w h r1 r2 r3 r4 r5 r6 : ℚ) : Comet :=
  let angle := -(mpi / 4 + r1 * mpi / 4)
  let speed := 6/10 + r2 * (6/10)
  { x := r3 * w + w, y := r4 * h * (5/10),
    vx := speed * mcos angle, vy := speed * msin angle,
    life := 0, maxLife := 300 + r5 * 200, size := 2 + r6 * 2 }

/-- The supernova factory `spawnSupernova` (src/main.js lines 92-100). -/
def spawnSupernova (w h r1 r2 r3 : ℚ) : Supernova :=
  { x := r1 * w * (8/10) + w * (1/10), y := r2 * h * (6/10) + h * (2/10),
    radius := 0, maxRadius := 80 + r3 * 120, alpha := 1 }

/-- The supernova pushed by the document click listener
(src/main.js lines 289-297). -/
def clickSupernova (clientX clientY r : ℚ) : Supernova :=
  { x := clientX, y := clientY, radius := 0, maxRadius := 80 + r * 100, alpha := 1 }

/-- The colour palette of `spawnNebula` (src/main.js lines 108-117). -/
def nebulaColours : List (String × String) :=
  [("rgba(200, 80, 255, 0.05)", "rgba(40, 0, 80, 0)"),
   ("rgba(0, 180, 220, 0.05)", "rgba(0, 20, 60, 0)"),
   ("rgba(255, 100, 150, 0.05)", "rgba(70, 0, 20, 0)"),
   ("rgba(255, 180, 70, 0.05)", "rgba(70, 20, 0, 0)")]

/-- The nebula factory `spawnNebula` (src/main.js lines 107-129); `r1 .. r7`
are the `Math.random()` draws in source order (colour choice, x, y, radius,
angle, speed, scaleX). -/
def spawnNebula (mpi w h r1 r2 r3 r4 r5 r6 r7 : ℚ) : Nebula :=
  let choice := nebulaColours.getD (Int.toNat ⌊r1 * 4⌋) ("", "")
  { x := r2 * w, y := r3 * h,
    radius := w * (4/10) + r4 * w * (6/10),
    angle := r5 * mpi * 2,
    speed := r6 * (7/10000) + 1/10000,
    scaleX := 1 + r7 * (15/10),
    inner := choice.1, outer := choice.2 }

/-- Nebula count on resize (src/main.js line 141):
`Math.max(1, Math.floor(Math.min(w, h) / 600))`. -/
def nebCount (w h : ℚ) : Nat :=
  Int.toNat (max 1 ⌊min w h / 600⌋)

/-- The nebulas spawned by `onResize` (src/main.js lines 138-144); nebula `i`
consumes draws `7*i .. 7*i+6` of the stream. -/
def spawnNebulasList (mpi w h : ℚ) (rand : Nat → ℚ) : List Nebula :=
  (List.range (nebCount w h)).map fun i =>
    spawnNebula mpi w h (rand (7*i)) (rand (7*i+1)) (rand (7*i+2)) (rand (7*i+3))
      (rand (7*i+4)) (rand (7*i+5)) (rand (7*i+6))

/-- The mutable state owned by `initUniverse` (src/main.js lines 10-18 and
44-45): canvas dimensions, normalised pointer position, and the four particle
arrays. -/
structure UState where
  w : ℚ
  h : ℚ
  mouseX : ℚ
  mouseY : ℚ
  stars : List Star
  comets : List Comet
  supernovas : List Supernova
  nebulas : List Nebula

/-- The resize handler `onResize` (src/main.js lines 131-145): stores the new
dimensions, empties and respawns `stars` (250 of them) and `nebulas`, and
touches nothing else. `randS`/`randN` are the random streams consumed by the
two respawns. -/
def onResize (mpi newW newH : ℚ) (randS randN : Nat → ℚ) (st : UState) : UState :=
  { st with
      w := newW
      h := newH
      stars := spawnStarsList 250 newW newH randS
      nebulas := spawnNebulasList mpi newW newH randN }

/-- The browser events that mutate the animator state, with the host inputs
(random draws, pointer coordinates, current time) they consume:
`mousemove` (src/main.js lines 46-52), `resize` (line 273), the comet spawn
interval (lines 275-278), the supernova spawn interval (lines 280-282), the
document click listener (lines 289-297), and one `draw` frame
(lines 148-270). -/
inductive UEvent where
  | mouseMove (clientX clientY vw vh : ℚ)
  | resize (newW newH : ℚ) (randS randN : Nat → ℚ)
  | cometTimer (r1 r2 r3 r4 r5 r6 : ℚ)
  | supernovaTimer (r1 r2 r3 : ℚ)
  | click (clientX clientY r : ℚ)
  | frame (sinT : ℚ) (rand : Nat → ℚ)

/-- The transition of the animator state under one event. The comet timer
pushes only when `comets.length < 6` (src/main.js line 277); the supernova
timer and the click listener always push; a `draw` frame rewrites each of the
four collections as in `draw` (the mascot rendering at lines 226-268 mutates
no animator state). -/
def step (msin mcos : ℚ → ℚ) (mpi : ℚ) : UEvent → UState → UState
  | .mouseMove cx cy vw vh, st =>
      { st with mouseX := cx / vw - 1/2, mouseY := cy / vh - 1/2 }
  | .resize newW newH randS randN, st => onResize mpi newW newH randS randN st
  | .cometTimer r1 r2 r3 r4 r5 r6, st =>
      if st.comets.length < 6 then
        { st with comets := st.comets ++ [spawnComet msin mcos mpi st.w st.h r1 r2 r3 r4 r5 r6] }
      else st
  | .supernovaTimer r1 r2 r3, st =>
      { st with supernovas := st.supernovas ++ [spawnSupernova st.w st.h r1 r2 r3] }
  | .click cx cy r, st =>
      { st with supernovas := st.supernovas ++ [clickSupernova cx cy r] }
  | .frame sinT rand, st =>
      { st with
          stars := starsDraw st.w st.h rand st.stars
          comets := cometsDraw st.h st.comets
          supernovas := supernovasDraw st.supernovas
          nebulas := nebulasDraw sinT st.nebulas }

/-- The state right after `initUniverse` starts (src/main.js lines 14-18 and
272): all four arrays start empty and `onResize()` runs once before any timer
or frame fires. -/
def initState (mpi newW newH : ℚ) (randS randN : Nat → ℚ) : UState :=
  onResize mpi newW newH randS randN
    { w := 0, h := 0, mouseX := 0, mouseY := 0,
      stars := [], comets := [], supernovas := [], nebulas := [] }

/-- The reachable states of the animator: the initial state followed by any
sequence of browser events. -/
inductive Reachable (msin mcos : ℚ → ℚ) (mpi : ℚ) : UState → Prop where
  | init (newW newH : ℚ) (randS randN : Nat → ℚ) :
      Reachable msin mcos mpi (initState mpi newW newH randS randN)
  | step (e : UEvent) {st : UState} :
      Reachable msin mcos mpi st → Reachable msin mcos mpi (step msin mcos mpi e st)

/-- The mascot transform computed inside `draw` (src/main.js lines 226-268):
position, rotation, scale and brightness of the dog, as a function of the
scroll fraction `percent`, the normalised pointer offset `(mouseX, mouseY)`
and the canvas dimensions `(w, h)` that the code reads. Returns
`(xPos, yPos, interactiveRotate, baseScale, brightness)`. -/
def mascotTransform (msin : ℚ → ℚ) (mpi percent mouseX mouseY w h : ℚ) :
    ℚ × ℚ × ℚ × ℚ × ℚ :=
  let totalDistance := w + 300
  let xPos := percent * totalDistance - 150
  let bob := msin (percent * mpi * 4) * 50
  let yPos := h * (5/10) + bob + mouseY * 80
  let baseRotate := msin (percent * mpi * 8) * 25 * mpi / 180
  let interactiveRotate := baseRotate + mouseX * (5/10)
  let baseScale0 := 8/10 + 4/10 * msin (percent * mpi)
  let baseScale1 := baseScale0 * (1 + mouseY * (3/10))
  let baseScale := max (5/10) (min (14/10) baseScale1)
  let brightness := 1 + |mouseX| * (4/10)
  (xPos, yPos, interactiveRotate, baseScale, brightness)

/-- The mascot transform as evaluated against the animator state: the code
reads `mouseX`, `mouseY`, `w` and `h` from the mutable closure variables and
`percent` from the document scroll position. -/
def mascotOfState (msin : ℚ → ℚ) (mpi percent : ℚ) (st : UState) :
    ℚ × ℚ × ℚ × ℚ × ℚ :=
  mascotTransform msin mpi percent st.mouseX st.mouseY st.w st.h

/-- The DOM state of one FAQ item touched by the click handler of `initFAQ`
(src/main.js lines 301-318): membership of the "open" class on the item, the
aria-expanded attribute of the question, and the inline maxHeight style of the answer
(`none` models the null assignment that removes the inline style). -/
structure FAQState where
  openCls : Bool
  ariaExpanded : String
  maxHeight : Option String
  deriving DecidableEq

/-- One click on a FAQ question (src/main.js lines 306-316):
`classList.toggle` flips the class, aria-expanded is set to `String(isOpen)`,
and maxHeight is set to `scrollHeight` followed by `px` when opening and to null when
closing. `scrollHeight` is the scroll height of the answer at click time. -/
def faqClick (scrollHeight : Nat) (st : FAQState) : FAQState :=
  let isOpen := !st.openCls
  { openCls := isOpen
    ariaExpanded := toString isOpen
    maxHeight := if isOpen then some (toString scrollHeight ++ "px") else none }

/-- The DOM state touched by the wallet-connect click handler
(src/main.js lines 413-436): the text and disabled flag of the button and the
text of the status element. -/
structure WalletDom where
  btnText : String
  btnDisabled : Bool
  statusText : String
  deriving DecidableEq

/-- Outcome of the asynchronous `connect()` call on the provider: it either
resolves with a response carrying a public key, or rejects. -/
inductive ConnectOutcome where
  | resolved (publicKey : String)
  | rejected
  deriving DecidableEq

/-- Observable result of one wallet-connect click: the final DOM state, the
alerts shown, and whether any error escaped the handler. -/
structure WalletResult where
  dom : WalletDom
  alerts : List String
  errorPropagated : Bool
  deriving DecidableEq

/-- One click on the connect button (src/main.js lines 417-435). When no
injected provider exists (`window.solana` undefined) an alert fires and the
handler returns with the DOM untouched. Otherwise the button is disabled and
relabelled while connecting; on resolution the status element shows
`Connected: ` followed by the full public key and the button reads
`Connected`; on rejection an alert fires and the button text is set to the
literal `Connect Wallet`; the `finally` block re-enables the button in both
cases. No exception escapes the handler. -/
def walletClick (providerPresent : Bool) (outcome : ConnectOutcome)
    (st : WalletDom) : WalletResult :=
  if !providerPresent then
    { dom := st
      alerts := ["No Solana wallet detected. Please install Phantom or another compatible wallet."]
      errorPropagated := false }
  else
    let st1 := { st with btnDisabled := true, btnText := "Connecting…" }
    match outcome with
    | .resolved pk =>
        { dom := { st1 with
                     statusText := "Connected: " ++ pk
                     btnText := "Connected"
                     btnDisabled := false }
          alerts := []
          errorPropagated := false }
    | .rejected =>
        { dom := { st1 with btnText := "Connect Wallet", btnDisabled := false }
          alerts := ["Failed to connect to wallet."]
          errorPropagated := false }

/-- Outcome of the asynchronous clipboard write promise. -/
inductive WriteOutcome where
  | resolved
  | rejected
  deriving DecidableEq

/-- Observable effect of one click on the copy button: the text passed to the
clipboard, the status text set immediately, the delay and text of the
scheduled timeout, and whether any error escaped the handler. -/
structure CopyEffect where
  requestedText : String
  statusNow : String
  timeoutMs : Nat
  statusAfterTimeout : String
  errorPropagated : Bool
  deriving DecidableEq

/-- One click on the copy button (src/main.js lines 400-409): the trimmed
address is written; on resolution the status reads `Copied!`, on rejection
`Failed to copy`, and in both cases a 2000 ms timeout clears it; the
`.catch` keeps any failure out of the caller. -/
def copyClick (address : String) (outcome : WriteOutcome) : CopyEffect :=
  let text := address.trim
  match outcome with
  | .resolved =>
      { requestedText := text, statusNow := "Copied!", timeoutMs := 2000,
        statusAfterTimeout := "", errorPropagated := false }
  | .rejected =>
      { requestedText := text, statusNow := "Failed to copy", timeoutMs := 2000,
        statusAfterTimeout := "", errorPropagated := false }

/-- Iterating the per-nebula frame update `k` times (the nebula is visited by
`k` consecutive `draw` frames, `sinT` held fixed for simplicity; `angle` does
not depend on `sinT`). -/
def nebulaIter (sinT : ℚ) : Nat → Nebula → Nebula
  | 0, n => n
  | k + 1, n => nebulaIter sinT k (nebulaStep sinT n)

/-- Spec-side definition, following the words of claim C1: the real-valued
reduction `(y + speed) mod h` ("wrapping at the viewport height"), i.e. the
representative of `y + speed` in `[0, h)`. It is compared against `starStep`,
which is translated from the source. -/
def specMod (a b : ℚ) : ℚ := a - b * ⌊a / b⌋

/-- Spec-side definition, following the words of claim C4: a status text
displaying a "truncated form" of an address must drop characters, so it is in
particular strictly shorter than the address itself. It is compared against
`walletClick`, which is translated from the source. -/
def truncatedDisplay (status address : String) : Prop :=
  status.length < address.length

section SpliceLemmas

variable {α : Type*}

/-- Erasing at the index right after a prefix `T` removes the head of the
suffix. -/
theorem eraseIdx_append_length (T : List α) (a : α) (D : List α) :
    (T ++ a :: D).eraseIdx T.length = T ++ D := by
  induction T with
  | nil => rfl
  | cons t T ih => simp [List.eraseIdx, ih]

/-- Taking one element past a prefix `T` keeps the head of the suffix. -/
theorem take_append_length_succ (T : List α) (a : α) (D : List α) :
    (T ++ a :: D).take (T.length + 1) = T ++ [a] := by
  induction T with
  | nil => rfl
  | cons t T ih => simp [List.take, ih]

/-- Dropping one element past a prefix `T` drops the head of the suffix. -/
theorem drop_append_length_succ (T : List α) (a : α) (D : List α) :
    (T ++ a :: D).drop (T.length + 1) = D := by
  induction T with
  | nil => rfl
  | cons t T ih => simp [List.drop, ih]

/-- Unfolding `spliceRun` on a surviving head. -/
theorem spliceRun_cons_live (upd : α → α) (kill : α → Bool) (a : α) (rest : List α)
    (h : kill (upd a) = false) :
    spliceRun upd kill (a :: rest) = upd a :: spliceRun upd kill rest := by
  rw [spliceRun.eq_def]; simp [h]

/-- Unfolding `spliceRun` when the last element is removed. -/
theorem spliceRun_cons_dead_nil (upd : α → α) (kill : α → Bool) (a : α)
    (h : kill (upd a) = true) :
    spliceRun upd kill [a] = [] := by
  rw [spliceRun.eq_def]; simp [h]

/-- Unfolding `spliceRun` on a removed head: the next element is skipped. -/
theorem spliceRun_cons_dead_cons (upd : α → α) (kill : α → Bool) (a b : α)
    (rest2 : List α) (h : kill (upd a) = true) :
    spliceRun upd kill (a :: b :: rest2) = b :: spliceRun upd kill rest2 := by
  rw [spliceRun.eq_def]; simp [h]

/-- Unfolding `spliceRun` on the empty list. -/
theorem spliceRun_nil (upd : α → α) (kill : α → Bool) :
    spliceRun upd kill [] = [] := rfl

/-- Generalised invariant of the indexed `forEach` loop: once the cursor is at
`k`, the prefix below `k` is frozen and the remainder behaves like
`spliceRun`. -/
theorem spliceForEach_go (upd : α → α) (kill : α → Bool) :
    ∀ (fuel k : Nat) (l : List α), l.length ≤ k + fuel →
      spliceForEach upd kill fuel k l = l.take k ++ spliceRun upd kill (l.drop k) := by
  intro fuel
  induction fuel with
  | zero =>
    intro k l hlen
    rw [Nat.add_zero] at hlen
    rw [spliceForEach, List.take_of_length_le hlen, List.drop_eq_nil_of_le hlen]
    simp [spliceRun]
  | succ fuel ih =>
    intro k l hlen
    rw [spliceForEach]
    by_cases hk : k < l.length
    · rw [dif_pos hk]
      have hT : (l.take k).length = k := by
        rw [List.length_take]; omega
      have hset : l.set k (upd (l.get ⟨k, hk⟩)) =
          l.take k ++ upd (l.get ⟨k, hk⟩) :: l.drop (k + 1) :=
        List.set_eq_take_cons_drop _ hk
      have hdropk : l.drop k = l.get ⟨k, hk⟩ :: l.drop (k + 1) := by
        rw [List.drop_eq_getElem_cons hk]; rfl
      have htake1 : (l.take k ++ upd (l.get ⟨k, hk⟩) :: l.drop (k + 1)).take (k + 1) =
          l.take k ++ [upd (l.get ⟨k, hk⟩)] := by
        have h2 := take_append_length_succ (l.take k) (upd (l.get ⟨k, hk⟩)) (l.drop (k + 1))
        rwa [hT] at h2
      have hdrop1 : (l.take k ++ upd (l.get ⟨k, hk⟩) :: l.drop (k + 1)).drop (k + 1) =
          l.drop (k + 1) := by
        have h2 := drop_append_length_succ (l.take k) (upd (l.get ⟨k, hk⟩)) (l.drop (k + 1))
        rwa [hT] at h2
      by_cases hkill : kill (upd (l.get ⟨k, hk⟩)) = true
      · rw [if_pos hkill]
        have herase : (l.set k (upd (l.get ⟨k, hk⟩))).eraseIdx k =
            l.take k ++ l.drop (k + 1) := by
          rw [hset]
          have h2 := eraseIdx_append_length (l.take k) (upd (l.get ⟨k, hk⟩)) (l.drop (k + 1))
          rwa [hT] at h2
        rw [herase]
        have hlen2 : (l.take k ++ l.drop (k + 1)).length ≤ (k + 1) + fuel := by
          rw [List.length_append, hT, List.length_drop]; omega
        rw [ih (k + 1) _ hlen2, hdropk]
        cases hD : l.drop (k + 1) with
        | nil =>
          rw [hD] at *
          rw [spliceRun_cons_dead_nil upd kill _ hkill]
          have hle : (l.take k).length ≤ k + 1 := by omega
          have hd0 : (l.take k).drop (k + 1) = [] :=
            List.drop_eq_nil_of_le (by rw [hT]; omega)
          simp [List.take_of_length_le hle, hd0, spliceRun]
        | cons d D2 =>
          rw [hD] at *
          rw [spliceRun_cons_dead_cons upd kill _ _ _ hkill]
          have htake2 : (l.take k ++ d :: D2).take (k + 1) = l.take k ++ [d] := by
            have h2 := take_append_length_succ (l.take k) d D2
            rwa [hT] at h2
          have hdrop2 : (l.take k ++ d :: D2).drop (k + 1) = D2 := by
            have h2 := drop_append_length_succ (l.take k) d D2
            rwa [hT] at h2
          rw [htake2, hdrop2]
          simp
      · rw [if_neg hkill]
        have hlen2 : (l.set k (upd (l.get ⟨k, hk⟩))).length ≤ (k + 1) + fuel := by
          rw [List.length_set]; omega
        rw [ih (k + 1) _ hlen2, hset, htake1, hdrop1, hdropk]
        rw [spliceRun_cons_live upd kill _ _ (Bool.not_eq_true _ ▸ hkill)]
        simp
    · rw [dif_neg hk]
      have hk' : l.length ≤ k := Nat.le_of_not_lt hk
      rw [List.take_of_length_le hk', List.drop_eq_nil_of_le hk']
      simp [spliceRun]

/-- One full `forEach`-with-`splice` pass equals its structural description
`spliceRun`. -/
theorem spliceForEach_eq_run (upd : α → α) (kill : α → Bool) (l : List α) :
    spliceForEach upd kill l.length 0 l = spliceRun upd kill l := by
  rw [spliceForEach_go upd kill l.length 0 l (by omega)]
  simp

/-- A `forEach`-with-`splice` pass never adds elements. -/
theorem spliceForEach_length_le (upd : α → α) (kill : α → Bool) :
    ∀ (fuel k : Nat) (l : List α),
      (spliceForEach upd kill fuel k l).length ≤ l.length := by
  intro fuel
  induction fuel with
  | zero => intro k l; rw [spliceForEach]
  | succ fuel ih =>
    intro k l
    rw [spliceForEach]
    by_cases hk : k < l.length
    · rw [dif_pos hk]
      by_cases hkill : kill (upd (l.get ⟨k, hk⟩)) = true
      · rw [if_pos hkill]
        refine le_trans (ih _ _) ?_
        rw [List.length_eraseIdx]
        rw [List.length_set]
        split <;> omega
      · rw [if_neg hkill]
        refine le_trans (ih _ _) ?_
        rw [List.length_set]
    · rw [dif_neg hk]

end SpliceLemmas


/-- Iterating the nebula frame update adds `k` times the (frame-invariant)
per-nebula speed to the angle. -/
theorem nebulaIter_angle (sinT : ℚ) :
    ∀ (k : Nat) (n : Nebula), (nebulaIter sinT k n).angle = n.angle + k * n.speed := by
  intro k
  induction k with
  | zero => intro n; simp [nebulaIter]
  | succ k ih =>
    intro n
    rw [nebulaIter, ih]
    simp only [nebulaStep]
    push_cast
    ring

/-- Claim C1 (corrected): the star update is not `y' = (y + speed) mod h`, and
wrapping is not the only change the wrap makes. What holds: when `y + speed`
stays within the viewport the star merely moves down by `speed` (x, radius,
speed, colour untouched); when `y + speed` exceeds `h` the code resets `y` to
exactly `0` — not to `(y + speed) mod h` — and also re-randomises `x` to a
fresh `Math.random() * w`. -/
theorem star_wrap_amended (w h randX : ℚ) (s : Star) :
    (s.y + s.speed ≤ h → starStep w h randX s = { s with y := s.y + s.speed }) ∧
    (h < s.y + s.speed → starStep w h randX s = { s with y := 0, x := randX * w }) := by
  constructor
  · intro hc
    simp only [starStep]
    rw [if_neg (not_lt.mpr hc)]
  · intro hc
    simp only [starStep]
    rw [if_pos hc]

/-- Witness for `star_wrap_amended`: in a `10 × 10` viewport, a star at
`y = 2` with speed `1` moves to `y = 3`; a star at `y = 19/2` wraps to `y = 0`
with its `x` re-randomised to `3`. -/
theorem star_wrap_amended_witness :
    starStep 10 10 (3/10) ⟨5, 2, 1, 1, 1⟩ = ⟨5, 3, 1, 1, 1⟩ ∧
    starStep 10 10 (3/10) ⟨5, 19/2, 1, 1, 1⟩ = ⟨3, 0, 1, 1, 1⟩ := by
  constructor
  · rw [(star_wrap_amended 10 10 (3/10) ⟨5, 2, 1, 1, 1⟩).1 (by norm_num)]
    norm_num [Star.mk.injEq]
  · rw [(star_wrap_amended 10 10 (3/10) ⟨5, 19/2, 1, 1, 1⟩).2 (by norm_num)]
    norm_num [Star.mk.injEq]

/-- Claim C1 counterexample: with viewport `w = h = 10`, a star at `y = 19/2`
with speed `1` steps to `y = 0`, while `(y + speed) mod h = 1/2`; moreover the
wrap also changes `x` (from `5` to the fresh draw `3`), so wrapping at the
viewport height is not the only change to the state of the star. -/
theorem star_wrap_mod_counterexample :
    (starStep 10 10 (3/10) ⟨5, 19/2, 1, 1, 1⟩).y = 0 ∧
    specMod ((19:ℚ)/2 + 1) 10 = 1/2 ∧
    (starStep 10 10 (3/10) ⟨5, 19/2, 1, 1, 1⟩).y ≠ specMod ((19:ℚ)/2 + 1) 10 ∧
    (starStep 10 10 (3/10) ⟨5, 19/2, 1, 1, 1⟩).x ≠ 5 := by
  have hstep : starStep 10 10 (3/10) ⟨5, 19/2, 1, 1, 1⟩ = ⟨3, 0, 1, 1, 1⟩ := by
    norm_num [starStep, Star.mk.injEq]
  have hfloor : ⌊((19:ℚ)/2 + 1) / 10⌋ = 1 := by
    rw [Int.floor_eq_iff]
    norm_num
  have hmod : specMod ((19:ℚ)/2 + 1) 10 = 1/2 := by
    rw [specMod, hfloor]
    norm_num
  rw [hstep, hmod]
  norm_num

/-- Claim C2 (corrected): one supernova pass equals its structural description
`spliceRun superUpdate superDead`: each visited supernova has its alpha
decreased by exactly `0.015 = 3/200` and is removed exactly when the updated
`alpha ≤ 0` or `radius > maxRadius`; but, because `splice` runs inside
`forEach`, the supernova immediately following a removed one is skipped for
that frame (neither updated nor checked). On a singleton collection the
claimed removal rule is exact. -/
theorem supernova_pass_characterization (l : List Supernova) (s : Supernova) :
    supernovasDraw l = spliceRun superUpdate superDead l ∧
    (superUpdate s).alpha = s.alpha - 3/200 ∧
    supernovasDraw [s] =
      (if superDead (superUpdate s) then [] else [superUpdate s]) := by
  refine ⟨spliceForEach_eq_run _ _ l, rfl, ?_⟩
  rw [supernovasDraw, spliceForEach_eq_run]
  by_cases hd : superDead (superUpdate s) = true
  · rw [if_pos hd, spliceRun_cons_dead_nil _ _ _ hd]
  · rw [if_neg hd, spliceRun_cons_live _ _ _ _ (by simpa using hd)]
    rfl

/-- Claim C2 counterexample: two supernovas that both satisfy the removal
condition (radius `100` above `maxRadius` `50`). One draw pass removes only
the first; the second — in a state the claim says must always be removed — is
retained, and its alpha not decreased (still `1`). -/
theorem supernova_removal_counterexample :
    supernovasDraw [⟨0, 0, 100, 50, 1⟩, ⟨1, 1, 100, 50, 1⟩] = [⟨1, 1, 100, 50, 1⟩] ∧
    superDead ⟨1, 1, 100, 50, 1⟩ = true := by
  constructor
  · rw [supernovasDraw, spliceForEach_eq_run,
      spliceRun_cons_dead_cons _ _ _ _ _ (by norm_num [superDead, superUpdate]),
      spliceRun_nil]
  · norm_num [superDead]

/-- Claim C3 (corrected): one comet pass equals its structural description
`spliceRun cometUpdate (cometDead h)`: each visited comet is moved, aged and
removed exactly when the updated comet has `life > maxLife` or is out of
bounds, and the pass never adds comets (survivors keep their relative order,
as `spliceRun` only drops elements); but the comet immediately following a
removed one is skipped for that frame, so a comet with `life > maxLife` can
survive one extra pass. On a singleton collection the claimed rule is exact. -/
theorem comet_pass_characterization (hview : ℚ) (l : List Comet) (c : Comet) :
    cometsDraw hview l = spliceRun cometUpdate (cometDead hview) l ∧
    (cometsDraw hview l).length ≤ l.length ∧
    cometsDraw hview [c] =
      (if cometDead hview (cometUpdate c) then [] else [cometUpdate c]) := by
  refine ⟨spliceForEach_eq_run _ _ l, spliceForEach_length_le _ _ _ _ _, ?_⟩
  rw [cometsDraw, spliceForEach_eq_run]
  by_cases hd : cometDead hview (cometUpdate c) = true
  · rw [if_pos hd, spliceRun_cons_dead_nil _ _ _ hd]
  · rw [if_neg hd, spliceRun_cons_live _ _ _ _ (by simpa using hd)]
    rfl

/-- Claim C3 counterexample: two in-bounds comets both already past their
`maxLife` (`life = 301 > 300`). One draw pass removes only the first; the
second — which the claim says is gone after the next draw pass — is retained,
still expired. -/
theorem comet_removal_counterexample :
    cometsDraw 1000 [⟨100, 100, 0, 0, 301, 300, 1⟩, ⟨200, 100, 0, 0, 301, 300, 1⟩] =
      [⟨200, 100, 0, 0, 301, 300, 1⟩] ∧
    cometDead 1000 ⟨200, 100, 0, 0, 301, 300, 1⟩ = true := by
  constructor
  · rw [cometsDraw, spliceForEach_eq_run,
      spliceRun_cons_dead_cons _ _ _ _ _ (by norm_num [cometDead, cometUpdate]),
      spliceRun_nil]
  · norm_num [cometDead]

/-- Claim C4 (corrected): without an injected provider an alert fires and the
DOM is untouched; when `connect()` resolves the status element shows
`Connected: ` followed by the full, untruncated public key and the button
reads `Connected`; when it rejects an alert fires and the button text is set
to the literal `Connect Wallet`; the `finally` block re-enables the button in
both connect branches and no error propagates to the caller. -/
theorem wallet_click_behavior (st : WalletDom) (o : ConnectOutcome) (pk : String) :
    walletClick false o st =
      ⟨st, ["No Solana wallet detected. Please install Phantom or another compatible wallet."],
        false⟩ ∧
    (walletClick true (.resolved pk) st).dom =
      ⟨"Connected", false, "Connected: " ++ pk⟩ ∧
    (walletClick true (.resolved pk) st).alerts = [] ∧
    (walletClick true .rejected st).dom =
      ⟨"Connect Wallet", false, st.statusText⟩ ∧
    (walletClick true .rejected st).alerts = ["Failed to connect to wallet."] ∧
    (walletClick true o st).errorPropagated = false := by
  refine ⟨rfl, rfl, rfl, rfl, rfl, ?_⟩
  cases o <;> rfl

/-- Claim C4 counterexample: when `connect()` resolves with the 8-character
address `ABCDEFGH` the status element shows `Connected: ABCDEFGH` — 19
characters containing the whole address — which is no truncated form of the
address (any truncation is strictly shorter than the address itself). -/
theorem wallet_truncation_counterexample :
    (walletClick true (.resolved "ABCDEFGH") ⟨"Connect Wallet", false, ""⟩).dom.statusText =
      "Connected: ABCDEFGH" ∧
    ¬ truncatedDisplay
        (walletClick true (.resolved "ABCDEFGH") ⟨"Connect Wallet", false, ""⟩).dom.statusText
        "ABCDEFGH" := by
  refine ⟨rfl, ?_⟩
  rw [truncatedDisplay]
  decide

/-- Claim C5 (confirmed): `onResize` stores the new canvas dimensions and
fully replaces the stars (250 freshly spawned) and the nebulas (freshly
spawned) while the comets and supernovas lists are exactly preserved — same
elements, same order, same field values. -/
theorem resize_preserves_comets_supernovas (mpi newW newH : ℚ)
    (randS randN : Nat → ℚ) (st : UState) :
    (onResize mpi newW newH randS randN st).comets = st.comets ∧
    (onResize mpi newW newH randS randN st).supernovas = st.supernovas ∧
    (onResize mpi newW newH randS randN st).stars = spawnStarsList 250 newW newH randS ∧
    (onResize mpi newW newH randS randN st).stars.length = 250 ∧
    (onResize mpi newW newH randS randN st).nebulas = spawnNebulasList mpi newW newH randN ∧
    (onResize mpi newW newH randS randN st).w = newW ∧
    (onResize mpi newW newH randS randN st).h = newH := by
  refine ⟨rfl, rfl, rfl, ?_, rfl, rfl, rfl⟩
  simp [onResize, spawnStarsList]

/-- Claim C6 (corrected): the mascot transform is a deterministic pure
function of the scroll fraction, the pointer offset and the canvas
dimensions: two animator states agreeing on `mouseX`, `mouseY`, `w` and `h`
yield identical transforms, with no dependence on the rest of the state
(stars, comets, supernovas, nebulas). The claim as stated fails because the
mutable canvas dimensions are among the inputs actually read (see the
counterexample). -/
theorem mascot_transform_deterministic (msin : ℚ → ℚ) (mpi percent : ℚ)
    (s1 s2 : UState) (hx : s1.mouseX = s2.mouseX) (hy : s1.mouseY = s2.mouseY)
    (hw : s1.w = s2.w) (hh : s1.h = s2.h) :
    mascotOfState msin mpi percent s1 = mascotOfState msin mpi percent s2 := by
  rw [mascotOfState, mascotOfState, hx, hy, hw, hh]

/-- Witness for `mascot_transform_deterministic`: two states differing only in
their comet list produce identical mascot transforms. -/
theorem mascot_transform_deterministic_witness :
    mascotOfState (fun _ => 0) 3 (1/2)
      { w := 100, h := 50, mouseX := 0, mouseY := 0,
        stars := [], comets := [], supernovas := [], nebulas := [] } =
    mascotOfState (fun _ => 0) 3 (1/2)
      { w := 100, h := 50, mouseX := 0, mouseY := 0,
        stars := [], comets := [⟨0, 0, 0, 0, 0, 0, 0⟩], supernovas := [], nebulas := [] } :=
  mascot_transform_deterministic (fun _ => 0) 3 (1/2) _ _ rfl rfl rfl rfl

/-- Claim C6 counterexample: two animator states with identical scroll
fraction (`1/2`) and identical pointer offset (`0`, `0`) but different canvas
widths (`100` vs `200`, as left behind by different resizes) yield different
mascot transforms (`x = 50` vs `x = 100`): the transform reads mutable state
beyond the scroll fraction and the pointer offset. -/
theorem mascot_hidden_state_counterexample :
    mascotOfState (fun _ => 0) 3 (1/2)
      { w := 100, h := 50, mouseX := 0, mouseY := 0,
        stars := [], comets := [], supernovas := [], nebulas := [] } ≠
    mascotOfState (fun _ => 0) 3 (1/2)
      { w := 200, h := 50, mouseX := 0, mouseY := 0,
        stars := [], comets := [], supernovas := [], nebulas := [] } := by
  intro hcontra
  have h1 := congrArg Prod.fst hcontra
  norm_num [mascotOfState, mascotTransform] at h1

/-- Claim C7 (corrected): two clicks on the same question always restore the
class membership of the item; they restore the aria-expanded attribute and
the maxHeight of the answer as well provided the pre-click values are consistent
with the open class (as they are after any click); an item whose initial
attributes disagree with its class is instead normalised by the pair of
clicks (see the counterexample). -/
theorem faq_double_click_amended (sh : Nat) (st : FAQState) :
    (faqClick sh (faqClick sh st)).openCls = st.openCls ∧
    (st.ariaExpanded = toString st.openCls →
      st.maxHeight = (if st.openCls then some (toString sh ++ "px") else none) →
      faqClick sh (faqClick sh st) = st) := by
  obtain ⟨o, a, m⟩ := st
  refine ⟨by cases o <;> rfl, ?_⟩
  intro ha hm
  simp only at ha hm
  rw [ha, hm]
  cases o <;> rfl

/-- Witness for `faq_double_click_amended`: a closed item with consistent
attributes returns exactly to its original state after two clicks. -/
theorem faq_double_click_amended_witness :
    (faqClick 50 (faqClick 50 ⟨false, "false", none⟩)).openCls = false ∧
    faqClick 50 (faqClick 50 ⟨false, "false", none⟩) = ⟨false, "false", none⟩ :=
  ⟨(faq_double_click_amended 50 ⟨false, "false", none⟩).1,
   (faq_double_click_amended 50 ⟨false, "false", none⟩).2 (by decide) (by decide)⟩

/-- Claim C7 counterexample: a FAQ item that starts closed but with
`aria-expanded="true"` and an inline maxHeight of `999px` is not returned to
its original state by two clicks: the class membership is restored but
aria-expanded ends up `false` and the inline maxHeight is cleared. -/
theorem faq_double_click_counterexample :
    faqClick 50 (faqClick 50 ⟨false, "true", some "999px"⟩) ≠
      ⟨false, "true", some "999px"⟩ ∧
    (faqClick 50 (faqClick 50 ⟨false, "true", some "999px"⟩)).openCls = false := by
  decide

/-- Claim C8 (confirmed): a click on the copy button writes the trimmed
address; on a resolved promise the status text becomes `Copied!`, on a
rejected one `Failed to copy`; in both cases a 2000 ms timeout empties the
status again and no error reaches the caller. -/
theorem copy_click_status (address : String) :
    copyClick address .resolved =
      ⟨address.trim, "Copied!", 2000, "", false⟩ ∧
    copyClick address .rejected =
      ⟨address.trim, "Failed to copy", 2000, "", false⟩ :=
  ⟨rfl, rfl⟩

/-- Claim C9 (confirmed): the comet spawn timer pushes a comet only when the
current count is strictly below 6, and no other event appends comets, so
every reachable animator state holds at most 6 comets. -/
theorem comet_count_invariant (msin mcos : ℚ → ℚ) (mpi : ℚ) (st : UState)
    (hr : Reachable msin mcos mpi st) : st.comets.length ≤ 6 := by
  induction hr with
  | init newW newH randS randN => simp [initState, onResize]
  | @step e stp hr ih =>
    cases e with
    | mouseMove cx cy vw vh => simpa [step] using ih
    | resize newW newH randS randN => simpa [step, onResize] using ih
    | cometTimer r1 r2 r3 r4 r5 r6 =>
      simp only [step]
      split
      · rename_i hlt
        simp only [List.length_append, List.length_cons, List.length_nil]
        omega
      · exact ih
    | supernovaTimer r1 r2 r3 => simpa [step] using ih
    | click cx cy r => simpa [step] using ih
    | frame sinT rand =>
      simp only [step]
      rw [cometsDraw]
      exact le_trans (spliceForEach_length_le _ _ _ _ _) ih

/-- Witness for `comet_count_invariant`: the initial state (right after
`initUniverse` ran `onResize`) is reachable and holds at most 6 comets. -/
theorem comet_count_invariant_witness :
    (initState 3 1024 768 (fun _ => 0) (fun _ => 0)).comets.length ≤ 6 :=
  comet_count_invariant (fun _ => 0) (fun _ => 0) 3 _
    (Reachable.init 1024 768 (fun _ => 0) (fun _ => 0))

/-- Claim C10 (corrected): every frame strictly increases the nebula angle by
its per-nebula speed, and every spawned nebula has positive speed; but the
code never reduces the angle: after `k` frames the angle is exactly
`angle + k * speed`, so it grows without bound instead of being kept in
`[0, 2π)` (see the counterexample). -/
theorem nebula_angle_increase_amended (sinT mpi w h r1 r2 r3 r4 r5 r6 r7 : ℚ)
    (n : Nebula) (k : Nat) (hpos : 0 < n.speed) :
    n.angle < (nebulaStep sinT n).angle ∧
    (nebulaIter sinT k n).angle = n.angle + k * n.speed ∧
    (0 ≤ r6 → 0 < (spawnNebula mpi w h r1 r2 r3 r4 r5 r6 r7).speed) := by
  refine ⟨?_, nebulaIter_angle sinT k n, ?_⟩
  · simp only [nebulaStep]
    linarith
  · intro h6
    simp only [spawnNebula]
    have : (0:ℚ) ≤ r6 * (7/10000) := mul_nonneg h6 (by norm_num)
    linarith

/-- Witness for `nebula_angle_increase_amended` at a concrete nebula with
angle `2` and speed `1`: one step increases the angle, three steps add `3`,
and a nebula spawned with speed draw `1/2` has positive speed. -/
theorem nebula_angle_increase_amended_witness :
    (2 : ℚ) < (nebulaStep 0 ⟨0, 0, 5, 2, 1, 1, "", ""⟩).angle ∧
    (nebulaIter 0 3 ⟨0, 0, 5, 2, 1, 1, "", ""⟩).angle = 2 + (3:Nat) * 1 ∧
    (0 : ℚ) < (spawnNebula 3 100 100 0 0 0 0 0 (1/2) 0).speed := by
  have h := nebula_angle_increase_amended 0 3 100 100 0 0 0 0 0 (1/2) 0
    ⟨0, 0, 5, 2, 1, 1, "", ""⟩ 3 (by norm_num)
  exact ⟨h.1, h.2.1, h.2.2 (by norm_num)⟩

/-- Claim C10 counterexample: a nebula spawned with angle `0` and speed
`9/20000` (speed draw `1/2`) has angle exactly `9` after `20000` draw frames,
and `9 ≥ 2π`: the rotation angle is not kept within `[0, 2π)` by any modular
reduction. -/
theorem nebula_angle_unbounded_counterexample :
    2 * Real.pi ≤
      ((nebulaIter 0 20000 (spawnNebula 3 1000 800 0 0 0 0 0 (1/2) 0)).angle : ℝ) := by
  have ha : (nebulaIter 0 20000 (spawnNebula 3 1000 800 0 0 0 0 0 (1/2) 0)).angle = 9 := by
    rw [nebulaIter_angle]
    simp only [spawnNebula]
    norm_num
  rw [ha]
  have hpi := Real.pi_lt_d2
  push_cast
  linarith

end GalacticBonk
